import Mathlib

/-!
Verification of the authorization core of the microservice template:
token validation (server middleware), tenant-scoped permission resolution
(client permission-utils and server permission-checker), the permission
override store, the audit log, and tenant-scoped business-data storage.

Each definition is a shallow embedding of the corresponding TypeScript
source. JavaScript semantics are kept where they matter: truthiness of
strings (the empty string is falsy), the x-or-else-y idiom for defaults,
object-spread overriding order, and Array find / filter / slice.
Timestamps are modelled as natural numbers, and the fresh ids produced by
crypto.randomUUID are modelled by a strictly increasing counter held in
the store state (the only property of randomUUID the code relies on is
that two generated ids differ).
-/

namespace Client

/-- The user object read from the stored token, as consumed by
permission-utils: only the role field is inspected by hasPermission and
requiresApproval. A missing or empty role is falsy in the source. -/
structure User where
  role : String
deriving DecidableEq, Repr

/-- A tenant permission override as the client receives it: fields may be
absent (modelled as Option), mirroring the o.active, o.rolesRequired and
o.autoApproveRoles accesses guarded with default values in the source. -/
structure Override where
  permission : String
  active : Option Bool
  rolesRequired : Option (List String)
  autoApproveRoles : Option (List String)
deriving DecidableEq, Repr

/-- The PERMISSIONS constant of client permission-utils: permission name
to the list of roles allowed by default. -/
def PERMISSIONS : List (String × List String) :=
  [ ("dashboard.view", ["admin", "teacher", "assistant_teacher", "director", "assistant_director"]),
    ("settings.access", ["admin", "director", "assistant_director"]),
    ("feature1.access", ["admin", "teacher", "director", "assistant_director"]),
    ("feature2.access", ["admin", "director"]),
    ("feature3.access", ["admin"]),
    ("data.create", ["admin", "teacher", "director", "assistant_director"]),
    ("data.update", ["admin", "teacher", "director", "assistant_director"]),
    ("data.delete", ["admin", "director"]),
    ("data.approve", ["admin", "director"]) ]

/-- The override lookup shared by hasPermission and requiresApproval:
permissionOverrides.find of o.permission equal to the permission and
o.active not equal to false (an absent active field counts as active). -/
def findOverride (overrides : List Override) (permission : String) : Option Override :=
  overrides.find? fun o => o.permission == permission && !(o.active == some false)

/-- hasPermission from client permission-utils, parameterised by the
static table (the source closes over the PERMISSIONS constant) and by the
user (the source reads it from getUserFromToken). -/
def hasPermissionWith (table : List (String × List String)) (user : Option User)
    (overrides : List Override) (permission : String) : Bool :=
  match user with
  | none => false
  | some u =>
    if u.role = "" then false
    else if u.role = "SuperAdmin" then true
    else
      match findOverride overrides permission with
      | some o =>
        ((o.rolesRequired.getD []) ++ (o.autoApproveRoles.getD [])).contains u.role
      | none =>
        match table.lookup permission with
        | some allowedRoles => allowedRoles.contains u.role
        | none => false

/-- hasPermission with the source's PERMISSIONS table. -/
def hasPermission (user : Option User) (overrides : List Override)
    (permission : String) : Bool :=
  hasPermissionWith PERMISSIONS user overrides permission

/-- requiresApproval from client permission-utils: an independent lookup,
separate from hasPermission, as in the source. -/
def requiresApproval (user : Option User) (overrides : List Override)
    (permission : String) : Bool :=
  match user with
  | none => true
  | some u =>
    if u.role = "" then true
    else if u.role = "SuperAdmin" then false
    else
      match findOverride overrides permission with
      | some o => !((o.autoApproveRoles.getD []).contains u.role)
      | none => !(["admin", "director"].contains u.role)

end Client

namespace Server

/-- Model of toLowerCase on the ASCII role strings the middleware
compares: lowercase every character. Defined over the character list so
that it evaluates by kernel reduction. -/
def jsToLower (s : String) : String :=
  String.mk (s.data.map Char.toLower)

/-- Result of the server-side permission check, as returned by
checkUserPermission in the permission-checker middleware. -/
structure PermissionResult where
  hasPermission : Bool
  requiresApproval : Bool
  reason : Option String
deriving DecidableEq, Repr

/-- The defaultPermissions table inside checkUserPermission: lowercased
role to its list of permission names. -/
def defaultPermissions : List (String × List String) :=
  [ ("teacher",
      ["resource.create", "resource.read", "resource.update",
       "data.read",
       "view.access_main"]),
    ("assistant_director",
      ["resource.create", "resource.read", "resource.update", "resource.delete",
       "resource.approve", "resource.reject",
       "data.create", "data.read", "data.update",
       "view.access_main", "view.access_tablet"]),
    ("director",
      ["resource.manage",
       "data.manage",
       "user.read", "user.update",
       "view.access_main", "view.access_tablet"]),
    ("admin",
      ["resource.manage",
       "data.manage",
       "user.manage",
       "settings.manage",
       "view.access_main", "view.access_tablet", "view.access_parent"]) ]

/-- checkUserPermission from the server permission-checker middleware.
It consults only the defaultPermissions table; the userId and tenantId
arguments are accepted but unused, exactly as in the source. -/
def checkUserPermission (userId role resource action tenantId : String) :
    PermissionResult :=
  if jsToLower role == "superadmin" then
    { hasPermission := true, requiresApproval := false, reason := none }
  else
    let permissionName := resource ++ "." ++ action
    let rolePermissions := (defaultPermissions.lookup (jsToLower role)).getD []
    let hasPermission :=
      rolePermissions.contains permissionName
      || rolePermissions.contains (resource ++ ".manage")
    { hasPermission := hasPermission,
      requiresApproval := false,
      reason :=
        if hasPermission then none
        else some ("Role " ++ role ++ " does not have permission for " ++ permissionName) }

end Server

namespace Auth

/-- The claims of a decoded JWT payload, as declared in the auth
middleware. Times are seconds as natural numbers. -/
structure JWTPayload where
  tenantId : String
  userId : String
  userFirstName : String
  userLastName : String
  username : String
  role : String
  locations : List String
  iat : Option Nat
  exp : Option Nat
deriving DecidableEq, Repr

/-- A bearer token as seen by jwt.verify: either undecodable, or a
payload together with the key it was signed with. Signature verification
under a secret is modelled as equality of that key with the secret (the
only property of HMAC the middleware relies on). -/
inductive Token where
  | malformed : Token
  | signed (payload : JWTPayload) (signedWith : String) : Token
deriving DecidableEq, Repr

/-- The two error classes of jsonwebtoken the middleware distinguishes:
TokenExpiredError and JsonWebTokenError (malformed token or bad
signature). -/
inductive VerifyError where
  | tokenExpired : VerifyError
  | jsonWebToken : VerifyError
deriving DecidableEq, Repr

/-- jwt.verify: decode, check the signature, then check expiry. A
malformed token or a wrong signature raises JsonWebTokenError; only a
token whose signature verifies can raise TokenExpiredError, which it
does when the exp claim is at or before the current time. -/
def jwtVerify (token : Token) (secret : String) (now : Nat) :
    Except VerifyError JWTPayload :=
  match token with
  | .malformed => .error .jsonWebToken
  | .signed payload signedWith =>
    if signedWith ≠ secret then .error .jsonWebToken
    else
      match payload.exp with
      | some e => if e ≤ now then .error .tokenExpired else .ok payload
      | none => .ok payload

/-- The identity attached to the request on successful authentication. -/
structure RequestUser where
  userId : String
  userFirstName : String
  userLastName : String
  username : String
  role : String
  locations : List String
  tenantId : String
deriving DecidableEq, Repr

/-- Outcome of the authenticateToken middleware: either the request
proceeds carrying the decoded user, or it is answered with an HTTP status
and error message. -/
inductive AuthOutcome where
  | ok (user : RequestUser) : AuthOutcome
  | err (status : Nat) (error : String) : AuthOutcome
deriving DecidableEq, Repr

/-- The user object authenticateToken attaches to the request from the
decoded payload. -/
def attachUser (p : JWTPayload) : RequestUser :=
  { userId := p.userId, userFirstName := p.userFirstName,
    userLastName := p.userLastName, username := p.username,
    role := p.role, locations := p.locations, tenantId := p.tenantId }

/-- authenticateToken from the auth middleware. The argument is the token
extracted from the Authorization header (none when the header is absent
or carries no second word): missing token answers 401, TokenExpiredError
answers 401, JsonWebTokenError answers 403; on success the decoded claims
are attached and the request proceeds. -/
def authenticateToken (token : Option Token) (secret : String) (now : Nat) :
    AuthOutcome :=
  match token with
  | none => .err 401 "Access token required"
  | some t =>
    match jwtVerify t secret now with
    | .ok payload => .ok (attachUser payload)
    | .error .tokenExpired => .err 401 "Token expired"
    | .error .jsonWebToken => .err 403 "Invalid token"

end Auth

/-- JavaScript x-or-else-d on an optional number: undefined and 0 are
falsy, so both fall back to the default. -/
def jsOrDefaultNat (x : Option Nat) (d : Nat) : Nat :=
  match x with
  | some n => if n = 0 then d else n
  | none => d

/-- JavaScript x-or-else-null on an optional string: undefined and the
empty string are falsy, so both become null. -/
def jsStringOrNull (x : Option String) : Option String :=
  match x with
  | some s => if s = "" then none else some s
  | none => none

namespace Mem1

/-- A stored tenant permission override, first storage version (shared
schema with an active flag; the column is nullable with default true, so
the stored value is an optional boolean). -/
structure PermissionOverride where
  id : String
  tenantId : String
  permission : String
  rolesRequired : List String
  autoApproveRoles : List String
  description : Option String
  active : Option Bool
  createdAt : Nat
  updatedAt : Nat
deriving DecidableEq, Repr

/-- State of the first in-memory storage: the values of its override map
in insertion order. -/
structure State where
  overrides : List PermissionOverride
deriving DecidableEq, Repr

/-- MemStorage.getPermissionOverrides, first version: all overrides of
the tenant whose active flag is truthy (true, not null and not false). -/
def getPermissionOverrides (s : State) (tenantId : String) :
    List PermissionOverride :=
  s.overrides.filter fun p => p.tenantId == tenantId && p.active == some true

/-- MemStorage.getPermissionOverride, first version: the first override
matching the tenant and permission whose active flag is truthy. -/
def getPermissionOverride (s : State) (tenantId permission : String) :
    Option PermissionOverride :=
  s.overrides.find? fun p =>
    p.tenantId == tenantId && p.permission == permission && p.active == some true

end Mem1

namespace Mem2

/-- A stored tenant permission override, second storage version: the
migration dropped the active column, so the record has none. -/
structure TenantPermissionOverride where
  id : String
  tenantId : String
  permissionName : String
  rolesRequired : List String
  autoApproveRoles : List String
  createdAt : Nat
  updatedAt : Nat
deriving DecidableEq, Repr

/-- A stored audit log entry. The id is assigned from the store's fresh
id counter (model of crypto.randomUUID); the timestamp from the clock at
write time. -/
structure AuditLog where
  id : Nat
  tenantId : String
  userId : String
  userRole : Option String
  action : String
  resource : String
  resourceId : Option String
  changes : Option String
  metadata : Option String
  ipAddress : Option String
  userAgent : Option String
  timestamp : Nat
deriving DecidableEq, Repr

/-- The caller-facing audit insert payload: the insert schema omits id
and timestamp, so the type has no such fields. -/
structure InsertAuditLog where
  tenantId : String
  userId : String
  userRole : Option String
  action : String
  resource : String
  resourceId : Option String
  changes : Option String
  metadata : Option String
  ipAddress : Option String
  userAgent : Option String
deriving DecidableEq, Repr

/-- A stored business data record (second storage version). -/
structure Data where
  id : String
  tenantId : String
  userId : String
  name : String
  description : Option String
  type : Option String
  status : String
  content : Option String
  metadata : Option String
  locationId : Option String
  locationIds : Option (List String)
  requiresApproval : Bool
  approvedBy : Option String
  approvedAt : Option Nat
  createdAt : Nat
  updatedAt : Nat
deriving DecidableEq, Repr

/-- An update payload for updateData: a JavaScript object whose keys may
each be present or absent. Keys for id, tenantId and createdAt are
representable (a raw request body can carry them) but the spread order in
updateData makes them ineffective. -/
structure DataUpdate where
  id : Option String
  tenantId : Option String
  createdAt : Option Nat
  userId : Option String
  name : Option String
  description : Option (Option String)
  type : Option (Option String)
  status : Option String
  content : Option (Option String)
  metadata : Option (Option String)
  locationId : Option (Option String)
  locationIds : Option (Option (List String))
  requiresApproval : Option Bool
  approvedBy : Option (Option String)
  approvedAt : Option (Option Nat)
deriving DecidableEq, Repr

/-- State of the second in-memory storage: the override map values in
insertion order, the audit log array, the data map as an association
list, and the fresh-id counter modelling crypto.randomUUID. -/
structure State where
  overrides : List TenantPermissionOverride
  auditLogs : List AuditLog
  dataMap : List (String × Data)
  nextId : Nat
deriving DecidableEq, Repr

/-- MemStorage.getPermissionOverrides, second version: all overrides of
the tenant (no active flag exists in this version). -/
def getPermissionOverrides (s : State) (tenantId : String) :
    List TenantPermissionOverride :=
  s.overrides.filter fun p => p.tenantId == tenantId

/-- MemStorage.getPermissionOverride, second version: the first override
matching the tenant and permission name. -/
def getPermissionOverride (s : State) (tenantId permission : String) :
    Option TenantPermissionOverride :=
  s.overrides.find? fun p =>
    p.tenantId == tenantId && p.permissionName == permission

/-- MemStorage.createAuditLog, second version: the stored entry takes its
id from the fresh-id source and its timestamp from the clock at write
time; each nullable field falls back to null when absent or falsy. -/
def createAuditLog (s : State) (now : Nat) (log : InsertAuditLog) :
    State × AuditLog :=
  let entry : AuditLog :=
    { id := s.nextId,
      tenantId := log.tenantId,
      userId := log.userId,
      userRole := jsStringOrNull log.userRole,
      action := log.action,
      resource := log.resource,
      resourceId := jsStringOrNull log.resourceId,
      changes := jsStringOrNull log.changes,
      metadata := jsStringOrNull log.metadata,
      ipAddress := jsStringOrNull log.ipAddress,
      userAgent := jsStringOrNull log.userAgent,
      timestamp := now }
  ({ s with auditLogs := s.auditLogs ++ [entry], nextId := s.nextId + 1 }, entry)

/-- Query parameters of getAuditLogs. -/
structure AuditQuery where
  tenantId : String
  userId : Option String
  resource : Option String
  action : Option String
  limit : Option Nat
  offset : Option Nat
deriving DecidableEq, Repr

/-- Result of getAuditLogs. -/
structure AuditLogsResult where
  logs : List AuditLog
  total : Nat
deriving DecidableEq, Repr

/-- One conditional filter step of getAuditLogs: applied only when the
parameter is supplied and truthy (a supplied empty string is falsy in
JavaScript and skips the filter). -/
def applyFilter (filt : Option String) (field : AuditLog → String)
    (logs : List AuditLog) : List AuditLog :=
  match filt with
  | some f => if f = "" then logs else logs.filter fun log => field log == f
  | none => logs

/-- MemStorage.getAuditLogs, second version: tenant filter, the three
optional filters, total before pagination, then slice from offset-or-0 of
length limit-or-50. -/
def getAuditLogs (s : State) (q : AuditQuery) : AuditLogsResult :=
  let filtered := s.auditLogs.filter fun log => log.tenantId == q.tenantId
  let filtered := applyFilter q.userId (fun log => log.userId) filtered
  let filtered := applyFilter q.resource (fun log => log.resource) filtered
  let filtered := applyFilter q.action (fun log => log.action) filtered
  let total := filtered.length
  let start := jsOrDefaultNat q.offset 0
  let lim := jsOrDefaultNat q.limit 50
  { logs := (filtered.drop start).take lim, total := total }

/-- MemStorage.getData, second version: map lookup by id, then null
unless the record belongs to the requesting tenant. -/
def getData (s : State) (id tenantId : String) : Option Data :=
  match s.dataMap.lookup id with
  | none => none
  | some item => if item.tenantId ≠ tenantId then none else some item

/-- Write one key of the data map, replacing the existing binding in
place or appending a new one (model of Map.set). -/
def setKey (m : List (String × Data)) (k : String) (v : Data) :
    List (String × Data) :=
  match m with
  | [] => [(k, v)]
  | (k', v') :: rest =>
    if k' == k then (k, v) :: rest else (k', v') :: setKey rest k v

/-- MemStorage.updateData, second version: fetch through getData (which
enforces the tenant), throw when absent, otherwise spread the update over
the existing record and then force id, tenantId and createdAt back to the
existing values and updatedAt to the write time. -/
def updateData (s : State) (now : Nat) (id tenantId : String)
    (u : DataUpdate) : Except String (State × Data) :=
  match getData s id tenantId with
  | none => .error "Data not found"
  | some existing =>
    let updated : Data :=
      { id := existing.id,
        tenantId := existing.tenantId,
        userId := u.userId.getD existing.userId,
        name := u.name.getD existing.name,
        description := u.description.getD existing.description,
        type := u.type.getD existing.type,
        status := u.status.getD existing.status,
        content := u.content.getD existing.content,
        metadata := u.metadata.getD existing.metadata,
        locationId := u.locationId.getD existing.locationId,
        locationIds := u.locationIds.getD existing.locationIds,
        requiresApproval := u.requiresApproval.getD existing.requiresApproval,
        approvedBy := u.approvedBy.getD existing.approvedBy,
        approvedAt := u.approvedAt.getD existing.approvedAt,
        createdAt := existing.createdAt,
        updatedAt := now }
    .ok ({ s with dataMap := setKey s.dataMap id updated }, updated)

end Mem2


/-! ## Shared helper lemmas -/

/-- Membership in an appended list, on the Bool-valued contains. -/
theorem contains_append_or {α : Type} [BEq α] (l₁ l₂ : List α) (a : α) :
    (l₁ ++ l₂).contains a = (l₁.contains a || l₂.contains a) := by
  induction l₁ with
  | nil => simp
  | cons hd tl ih =>
    simp [List.contains_cons, ih, Bool.or_assoc]

/-- An override whose active field is false is skipped by the client
override lookup. -/
theorem findOverride_cons_inactive (o : Client.Override)
    (rest : List Client.Override) (p : String) (h : o.active = some false) :
    Client.findOverride (o :: rest) p = Client.findOverride rest p := by
  simp [Client.findOverride, List.find?_cons, h]

/-! ## Claim C2 -/

/-- Claim C2: a principal whose role is the distinguished super-role gets
allowed true and requiresApproval false, unconditionally, from both the
client resolver (for every override list and every static table, so
neither is consulted) and the server middleware resolver. -/
theorem permission_super_role_unconditional :
    (∀ (table : List (String × List String)) (u : Client.User)
        (overrides : List Client.Override) (permission : String),
        u.role = "SuperAdmin" →
        Client.hasPermissionWith table (some u) overrides permission = true)
    ∧ (∀ (u : Client.User) (overrides : List Client.Override) (permission : String),
        u.role = "SuperAdmin" →
        Client.requiresApproval (some u) overrides permission = false)
    ∧ (∀ userId role resource action tenantId : String,
        Server.jsToLower role = "superadmin" →
        Server.checkUserPermission userId role resource action tenantId =
          { hasPermission := true, requiresApproval := false, reason := none }) := by
  refine ⟨?_, ?_, ?_⟩
  · intro table u overrides permission h
    simp [Client.hasPermissionWith, h]
  · intro u overrides permission h
    simp [Client.requiresApproval, h]
  · intro userId role resource action tenantId h
    simp [Server.checkUserPermission, h]

/-- Witness for C2 at the role SuperAdmin. -/
theorem permission_super_role_unconditional_witness :
    Client.hasPermissionWith Client.PERMISSIONS (some ⟨"SuperAdmin"⟩) [] "data.delete" = true
    ∧ Client.requiresApproval (some ⟨"SuperAdmin"⟩) [] "data.delete" = false
    ∧ Server.checkUserPermission "u1" "SuperAdmin" "data" "delete" "T1" =
        { hasPermission := true, requiresApproval := false, reason := none } :=
  ⟨permission_super_role_unconditional.1 Client.PERMISSIONS ⟨"SuperAdmin"⟩ [] "data.delete" rfl,
   permission_super_role_unconditional.2.1 ⟨"SuperAdmin"⟩ [] "data.delete" rfl,
   permission_super_role_unconditional.2.2 "u1" "SuperAdmin" "data" "delete" "T1" (by decide)⟩

/-! ## Claim C1 -/

/-- An active stored override granting data.delete to teachers of tenant
T1, first storage version. -/
def c1StoredOverride : Mem1.PermissionOverride :=
  { id := "ov1", tenantId := "T1", permission := "data.delete",
    rolesRequired := ["teacher"], autoApproveRoles := [],
    description := none, active := some true, createdAt := 0, updatedAt := 0 }

/-- A store holding exactly that override. -/
def c1Store : Mem1.State := { overrides := [c1StoredOverride] }

/-- The same override as the client receives it. -/
def c1ClientOverride : Client.Override :=
  { permission := "data.delete", active := some true,
    rolesRequired := some ["teacher"], autoApproveRoles := some [] }

/-- Claim C1 is false as stated: an active override for
(T1, data.delete) admitting the teacher role exists in the store, yet the
server middleware decision for a teacher on data.delete is denial,
computed from the static matrix; the override is not what the decision is
computed from. -/
theorem override_always_wins_counterexample :
    Mem1.getPermissionOverride c1Store "T1" "data.delete" = some c1StoredOverride
    ∧ c1StoredOverride.rolesRequired.contains "teacher" = true
    ∧ (Server.checkUserPermission "u1" "teacher" "data" "delete" "T1").hasPermission = false := by
  decide

/-- Claim C1 (amended): in the client resolver an active override, when
found, alone determines the decision - allowed iff the role is in
rolesRequired or autoApproveRoles - and the static table is never
consulted (the result is the same under every table); the server
middleware resolver, by contrast, never consults the override store: even
when an active override exists for the permission, its answer is the
static-matrix formula. -/
theorem override_wins_in_client_resolver_only :
    (∀ (table : List (String × List String)) (u : Client.User)
        (ovs : List Client.Override) (p : String) (o : Client.Override),
        u.role ≠ "" → u.role ≠ "SuperAdmin" →
        Client.findOverride ovs p = some o →
        Client.hasPermissionWith table (some u) ovs p =
          ((o.rolesRequired.getD []) ++ (o.autoApproveRoles.getD [])).contains u.role)
    ∧ (∀ (table₁ table₂ : List (String × List String)) (user : Option Client.User)
        (ovs : List Client.Override) (p : String),
        (Client.findOverride ovs p).isSome = true →
        Client.hasPermissionWith table₁ user ovs p =
          Client.hasPermissionWith table₂ user ovs p)
    ∧ (∀ (s : Mem1.State) (userId role resource action tenantId : String)
        (o : Mem1.PermissionOverride),
        Server.jsToLower role ≠ "superadmin" →
        Mem1.getPermissionOverride s tenantId (resource ++ "." ++ action) = some o →
        (Server.checkUserPermission userId role resource action tenantId).hasPermission =
          (((Server.defaultPermissions.lookup (Server.jsToLower role)).getD []).contains
              (resource ++ "." ++ action)
            || ((Server.defaultPermissions.lookup (Server.jsToLower role)).getD []).contains
              (resource ++ ".manage"))) := by
  refine ⟨?_, ?_, ?_⟩
  · intro table u ovs p o h1 h2 hfind
    simp [Client.hasPermissionWith, h1, h2, hfind]
  · intro table₁ table₂ user ovs p hsome
    cases user with
    | none => rfl
    | some u =>
      by_cases h1 : u.role = ""
      · simp [Client.hasPermissionWith, h1]
      · by_cases h2 : u.role = "SuperAdmin"
        · simp [Client.hasPermissionWith, h1, h2]
        · cases hfind : Client.findOverride ovs p with
          | none => rw [hfind] at hsome; simp at hsome
          | some o => simp [Client.hasPermissionWith, h1, h2, hfind]
  · intro s userId role resource action tenantId o hrole _hfind
    simp [Server.checkUserPermission, hrole]

/-- Witness for the amended C1, at a teacher and the data.delete
override. -/
theorem override_wins_in_client_resolver_only_witness :
    Client.hasPermissionWith Client.PERMISSIONS (some ⟨"teacher"⟩)
        [c1ClientOverride] "data.delete" =
      ((c1ClientOverride.rolesRequired.getD [])
        ++ (c1ClientOverride.autoApproveRoles.getD [])).contains "teacher"
    ∧ Client.hasPermissionWith [] (some ⟨"teacher"⟩) [c1ClientOverride] "data.delete" =
        Client.hasPermissionWith Client.PERMISSIONS (some ⟨"teacher"⟩)
          [c1ClientOverride] "data.delete"
    ∧ (Server.checkUserPermission "u1" "teacher" "data" "delete" "T1").hasPermission =
        (((Server.defaultPermissions.lookup (Server.jsToLower "teacher")).getD []).contains
            ("data" ++ "." ++ "delete")
          || ((Server.defaultPermissions.lookup (Server.jsToLower "teacher")).getD []).contains
            ("data" ++ ".manage")) :=
  ⟨override_wins_in_client_resolver_only.1 Client.PERMISSIONS ⟨"teacher"⟩
      [c1ClientOverride] "data.delete" c1ClientOverride (by decide) (by decide) (by decide),
   override_wins_in_client_resolver_only.2.1 [] Client.PERMISSIONS (some ⟨"teacher"⟩)
      [c1ClientOverride] "data.delete" (by decide),
   override_wins_in_client_resolver_only.2.2 c1Store "u1" "teacher" "data" "delete" "T1"
      c1StoredOverride (by decide) (by decide)⟩

/-! ## Claim C3 -/

/-- An active override on data.delete requiring director, auto-approving
admin, as the client sees it. -/
def c3Override : Client.Override :=
  { permission := "data.delete", active := some true,
    rolesRequired := some ["director"], autoApproveRoles := some ["admin"] }

/-- Claim C3 is false as stated: with an active override whose role sets
are director and admin, a teacher gets allowed false from hasPermission
but requiresApproval true from the independent requiresApproval lookup,
so requiresApproval is not allowed AND role not auto-approved, and it is
true while allowed is false. -/
theorem approval_pair_counterexample :
    Client.hasPermission (some ⟨"teacher"⟩) [c3Override] "data.delete" = false
    ∧ Client.requiresApproval (some ⟨"teacher"⟩) [c3Override] "data.delete" = true := by
  decide

/-- Claim C3 (amended): with an active override, the client computes the
two booleans by two independent lookups: allowed is membership of the
role in rolesRequired or autoApproveRoles, while requiresApproval is
simply non-membership in autoApproveRoles, not conjoined with allowed. A
role in autoApproveRoles therefore still gets allowed true and
requiresApproval false even when absent from rolesRequired, but a role in
neither set gets allowed false together with requiresApproval true. -/
theorem approval_pair_independent_lookups :
    ∀ (table : List (String × List String)) (u : Client.User)
      (ovs : List Client.Override) (p : String) (o : Client.Override),
      u.role ≠ "" → u.role ≠ "SuperAdmin" →
      Client.findOverride ovs p = some o →
      Client.hasPermissionWith table (some u) ovs p =
        ((o.rolesRequired.getD []) ++ (o.autoApproveRoles.getD [])).contains u.role
      ∧ Client.requiresApproval (some u) ovs p =
          !((o.autoApproveRoles.getD []).contains u.role)
      ∧ ((o.autoApproveRoles.getD []).contains u.role = true →
          Client.hasPermissionWith table (some u) ovs p = true
          ∧ Client.requiresApproval (some u) ovs p = false) := by
  intro table u ovs p o h1 h2 hfind
  have hhas : Client.hasPermissionWith table (some u) ovs p =
      ((o.rolesRequired.getD []) ++ (o.autoApproveRoles.getD [])).contains u.role := by
    simp [Client.hasPermissionWith, h1, h2, hfind]
  have hreq : Client.requiresApproval (some u) ovs p =
      !((o.autoApproveRoles.getD []).contains u.role) := by
    simp [Client.requiresApproval, h1, h2, hfind]
  refine ⟨hhas, hreq, ?_⟩
  intro hauto
  constructor
  · rw [hhas, contains_append_or, hauto, Bool.or_true]
  · rw [hreq, hauto]
    rfl

/-- Witness for the amended C3: an admin under the same override is
auto-approved. -/
theorem approval_pair_independent_lookups_witness :
    Client.hasPermissionWith Client.PERMISSIONS (some ⟨"admin"⟩) [c3Override] "data.delete" =
      ((c3Override.rolesRequired.getD [])
        ++ (c3Override.autoApproveRoles.getD [])).contains "admin"
    ∧ Client.requiresApproval (some ⟨"admin"⟩) [c3Override] "data.delete" =
        !((c3Override.autoApproveRoles.getD []).contains "admin")
    ∧ ((c3Override.autoApproveRoles.getD []).contains "admin" = true →
        Client.hasPermissionWith Client.PERMISSIONS (some ⟨"admin"⟩) [c3Override] "data.delete" = true
        ∧ Client.requiresApproval (some ⟨"admin"⟩) [c3Override] "data.delete" = false) :=
  approval_pair_independent_lookups Client.PERMISSIONS ⟨"admin"⟩ [c3Override] "data.delete"
    c3Override (by decide) (by decide) (by decide)

/-! ## Claim C4 -/

/-- Claim C4 is false as stated: with no override at all, the static
fallback grants dashboard.view to a teacher, but the client computes
requiresApproval true in this path (teacher is not admin or director),
not the claimed false. -/
theorem static_fallback_counterexample :
    Client.hasPermission (some ⟨"teacher"⟩) [] "dashboard.view" = true
    ∧ Client.requiresApproval (some ⟨"teacher"⟩) [] "dashboard.view" = true := by
  decide

/-- Claim C4 (amended): with no active override, the server resolver
answers from the static matrix with the manage wildcard - allowed iff the
permission name or resource.manage is in the role's list, deny when in
neither - and its requiresApproval is always false; the client resolver
falls back to its own table by exact permission-name lookup only (deny
when the permission is absent), and computes requiresApproval as role not
in admin or director, independent of the permission. -/
theorem static_fallback_semantics :
    (∀ userId role resource action tenantId : String,
        Server.jsToLower role ≠ "superadmin" →
        ((Server.checkUserPermission userId role resource action tenantId).requiresApproval = false
          ∧ (Server.checkUserPermission userId role resource action tenantId).hasPermission =
            (((Server.defaultPermissions.lookup (Server.jsToLower role)).getD []).contains
                (resource ++ "." ++ action)
              || ((Server.defaultPermissions.lookup (Server.jsToLower role)).getD []).contains
                (resource ++ ".manage"))))
    ∧ (∀ (table : List (String × List String)) (u : Client.User)
        (ovs : List Client.Override) (p : String),
        u.role ≠ "" → u.role ≠ "SuperAdmin" →
        Client.findOverride ovs p = none →
        Client.hasPermissionWith table (some u) ovs p =
          (match table.lookup p with
            | some allowedRoles => allowedRoles.contains u.role
            | none => false)
        ∧ Client.requiresApproval (some u) ovs p =
            !(["admin", "director"].contains u.role)) := by
  constructor
  · intro userId role resource action tenantId hrole
    constructor
    · simp [Server.checkUserPermission, hrole]
    · simp [Server.checkUserPermission, hrole]
  · intro table u ovs p h1 h2 hfind
    constructor
    · simp [Client.hasPermissionWith, h1, h2, hfind]
    · simp [Client.requiresApproval, h1, h2, hfind]

/-- Witness for the amended C4, at a teacher with no overrides. -/
theorem static_fallback_semantics_witness :
    ((Server.checkUserPermission "u1" "teacher" "data" "read" "T1").requiresApproval = false
      ∧ (Server.checkUserPermission "u1" "teacher" "data" "read" "T1").hasPermission =
        (((Server.defaultPermissions.lookup (Server.jsToLower "teacher")).getD []).contains
            ("data" ++ "." ++ "read")
          || ((Server.defaultPermissions.lookup (Server.jsToLower "teacher")).getD []).contains
            ("data" ++ ".manage")))
    ∧ (Client.hasPermissionWith Client.PERMISSIONS (some ⟨"teacher"⟩) [] "dashboard.view" =
        (match Client.PERMISSIONS.lookup "dashboard.view" with
          | some allowedRoles => allowedRoles.contains "teacher"
          | none => false)
        ∧ Client.requiresApproval (some ⟨"teacher"⟩) [] "dashboard.view" =
            !(["admin", "director"].contains "teacher")) :=
  ⟨static_fallback_semantics.1 "u1" "teacher" "data" "read" "T1" (by decide),
   static_fallback_semantics.2 Client.PERMISSIONS ⟨"teacher"⟩ [] "dashboard.view"
     (by decide) (by decide) (by decide)⟩

/-! ## Claim C5 -/

/-- A payload whose exp lies in the past of the test clock. -/
def c5ExpiredPayload : Auth.JWTPayload :=
  { tenantId := "T1", userId := "u1", userFirstName := "F", userLastName := "L",
    username := "user1", role := "teacher", locations := ["loc1"],
    iat := some 1, exp := some 3 }

/-- A payload with a future exp. -/
def c5FreshPayload : Auth.JWTPayload :=
  { tenantId := "T1", userId := "u1", userFirstName := "F", userLastName := "L",
    username := "user1", role := "teacher", locations := ["loc1"],
    iat := some 1, exp := some 1000 }

/-- Claim C5 is false as stated: a malformed token is rejected with
status 403, not a 401-equivalent response. -/
theorem auth_all_failures_401_counterexample :
    Auth.authenticateToken (some Auth.Token.malformed) "secret" 100 =
      Auth.AuthOutcome.err 403 "Invalid token"
    ∧ (403 : Nat) ≠ 401 := by
  decide

/-- Claim C5 (amended): authentication always fails closed - a missing
token answers 401, a malformed token or one whose signature does not
verify under the secret answers 403, a token with a past exp and a valid
signature answers 401 as expired (with an invalid signature it still
fails, as 403) - and a request user is only ever produced from a token
that is well formed, signed with the configured secret, and unexpired. -/
theorem auth_fails_closed :
    ∀ (secret : String) (now : Nat),
      Auth.authenticateToken none secret now =
        Auth.AuthOutcome.err 401 "Access token required"
      ∧ Auth.authenticateToken (some Auth.Token.malformed) secret now =
          Auth.AuthOutcome.err 403 "Invalid token"
      ∧ (∀ (p : Auth.JWTPayload) (k : String), k ≠ secret →
          Auth.authenticateToken (some (Auth.Token.signed p k)) secret now =
            Auth.AuthOutcome.err 403 "Invalid token")
      ∧ (∀ (p : Auth.JWTPayload) (e : Nat), p.exp = some e → e ≤ now →
          Auth.authenticateToken (some (Auth.Token.signed p secret)) secret now =
            Auth.AuthOutcome.err 401 "Token expired")
      ∧ (∀ (t : Auth.Token) (u : Auth.RequestUser),
          Auth.authenticateToken (some t) secret now = Auth.AuthOutcome.ok u →
          ∃ p : Auth.JWTPayload, t = Auth.Token.signed p secret
            ∧ (∀ e, p.exp = some e → now < e)
            ∧ u = Auth.attachUser p) := by
  intro secret now
  refine ⟨rfl, rfl, ?_, ?_, ?_⟩
  · intro p k hk
    simp [Auth.authenticateToken, Auth.jwtVerify, hk]
  · intro p e he hle
    simp [Auth.authenticateToken, Auth.jwtVerify, he, hle]
  · intro t u h
    cases t with
    | malformed => simp [Auth.authenticateToken, Auth.jwtVerify] at h
    | signed p k =>
      by_cases hk : k = secret
      · subst hk
        cases hexp : p.exp with
        | none =>
          simp [Auth.authenticateToken, Auth.jwtVerify, hexp] at h
          exact ⟨p, rfl, fun e he => absurd (hexp ▸ he) (by simp), h.symm⟩
        | some e =>
          by_cases hle : e ≤ now
          · simp [Auth.authenticateToken, Auth.jwtVerify, hexp, hle] at h
          · simp [Auth.authenticateToken, Auth.jwtVerify, hexp, hle] at h
            refine ⟨p, rfl, ?_, h.symm⟩
            intro e' he'
            rw [hexp] at he'
            cases he'
            omega
      · simp [Auth.authenticateToken, Auth.jwtVerify, hk] at h

/-- Witness for the amended C5: each branch at concrete tokens, secret
and clock 100. -/
theorem auth_fails_closed_witness :
    Auth.authenticateToken none "secret" 100 =
      Auth.AuthOutcome.err 401 "Access token required"
    ∧ Auth.authenticateToken (some (Auth.Token.signed c5FreshPayload "wrong")) "secret" 100 =
        Auth.AuthOutcome.err 403 "Invalid token"
    ∧ Auth.authenticateToken (some (Auth.Token.signed c5ExpiredPayload "secret")) "secret" 100 =
        Auth.AuthOutcome.err 401 "Token expired"
    ∧ (∃ p : Auth.JWTPayload, Auth.Token.signed c5FreshPayload "secret" = Auth.Token.signed p "secret"
        ∧ (∀ e, p.exp = some e → 100 < e)
        ∧ Auth.attachUser c5FreshPayload = Auth.attachUser p) :=
  ⟨(auth_fails_closed "secret" 100).1,
   (auth_fails_closed "secret" 100).2.2.1 c5FreshPayload "wrong" (by decide),
   (auth_fails_closed "secret" 100).2.2.2.1 c5ExpiredPayload 3 rfl (by decide),
   (auth_fails_closed "secret" 100).2.2.2.2 (Auth.Token.signed c5FreshPayload "secret")
     (Auth.attachUser c5FreshPayload) (by decide)⟩

/-! ## Claim C6 -/

/-- An inactive override for the C6 witness. -/
def c6InactiveOverride : Client.Override :=
  { permission := "data.delete", active := some false,
    rolesRequired := some ["teacher"], autoApproveRoles := some ["teacher"] }

/-- An inactive stored override of tenant T1, first storage version. -/
def c6InactiveStored : Mem1.PermissionOverride :=
  { id := "ov1", tenantId := "T1", permission := "data.delete",
    rolesRequired := ["director"], autoApproveRoles := ["admin"],
    description := none, active := some false, createdAt := 0, updatedAt := 5 }

/-- An active stored override of tenant T1, first storage version. -/
def c6ActiveStored : Mem1.PermissionOverride :=
  { id := "ov2", tenantId := "T1", permission := "data.create",
    rolesRequired := ["teacher"], autoApproveRoles := [],
    description := none, active := some true, createdAt := 0, updatedAt := 5 }

/-- A first-version store holding one inactive and one active override of
the same tenant. -/
def c6Store : Mem1.State :=
  { overrides := [c6InactiveStored, c6ActiveStored] }

/-- Claim C6: an override with active false is excluded from resolution.
In the first storage version both lookups return only records whose
active flag is true (and of the requested tenant and permission); in the
client resolver an override with active false contributes nothing to
either decision, while the record itself remains in the list. -/
theorem inactive_override_excluded :
    (∀ (s : Mem1.State) (t p : String) (o : Mem1.PermissionOverride),
        Mem1.getPermissionOverride s t p = some o →
        o.active = some true ∧ o.tenantId = t ∧ o.permission = p)
    ∧ (∀ (s : Mem1.State) (t : String) (o : Mem1.PermissionOverride),
        o ∈ Mem1.getPermissionOverrides s t →
        o.active = some true ∧ o.tenantId = t)
    ∧ (∀ (table : List (String × List String)) (user : Option Client.User)
        (o : Client.Override) (rest : List Client.Override) (p : String),
        o.active = some false →
        Client.hasPermissionWith table user (o :: rest) p =
          Client.hasPermissionWith table user rest p
        ∧ Client.requiresApproval user (o :: rest) p =
          Client.requiresApproval user rest p) := by
  refine ⟨?_, ?_, ?_⟩
  · intro s t p o h
    have hp := List.find?_some h
    simp only [Bool.and_eq_true, beq_iff_eq] at hp
    exact ⟨hp.2, hp.1.1, hp.1.2⟩
  · intro s t o h
    have hp := (List.mem_filter.mp h).2
    simp only [Bool.and_eq_true, beq_iff_eq] at hp
    exact ⟨hp.2, hp.1⟩
  · intro table user o rest p h
    constructor
    · cases user with
      | none => rfl
      | some u =>
        simp [Client.hasPermissionWith, findOverride_cons_inactive o rest p h]
    · cases user with
      | none => rfl
      | some u =>
        simp [Client.requiresApproval, findOverride_cons_inactive o rest p h]

/-- Witness for C6: the active override is returned with its flags
checked, and prepending an inactive override changes neither client
decision. -/
theorem inactive_override_excluded_witness :
    (c6ActiveStored.active = some true ∧ c6ActiveStored.tenantId = "T1")
    ∧ (Client.hasPermissionWith Client.PERMISSIONS (some ⟨"teacher"⟩)
          [c6InactiveOverride] "data.delete" =
        Client.hasPermissionWith Client.PERMISSIONS (some ⟨"teacher"⟩) [] "data.delete"
      ∧ Client.requiresApproval (some ⟨"teacher"⟩) [c6InactiveOverride] "data.delete" =
        Client.requiresApproval (some ⟨"teacher"⟩) [] "data.delete") :=
  ⟨inactive_override_excluded.2.1 c6Store "T1" c6ActiveStored (by decide),
   inactive_override_excluded.2.2 Client.PERMISSIONS (some ⟨"teacher"⟩)
     c6InactiveOverride [] "data.delete" (by decide)⟩

/-! ## Claim C7 -/

/-- An audit insert payload for the C7 witness. -/
def c7Payload : Mem2.InsertAuditLog :=
  { tenantId := "T1", userId := "u1", userRole := some "teacher",
    action := "CREATE", resource := "data", resourceId := some "d1",
    changes := none, metadata := none, ipAddress := none, userAgent := none }

/-- An empty second-version store. -/
def c7Store : Mem2.State :=
  { overrides := [], auditLogs := [], dataMap := [], nextId := 0 }

/-- Claim C7: the recorder assigns id and timestamp at write time - the
stored entry carries the store's fresh id and the write-time clock, the
same for every payload, and the insert payload type carries no id or
timestamp field at all - and two appends (with any payloads, identical
ones included) under a non-decreasing clock yield distinct ids and
non-decreasing timestamps. -/
theorem audit_append_fresh_id_and_timestamp :
    ∀ (s : Mem2.State) (now₁ now₂ : Nat) (l₁ l₂ : Mem2.InsertAuditLog),
      ((Mem2.createAuditLog s now₁ l₁).2.id = s.nextId
        ∧ (Mem2.createAuditLog s now₁ l₁).2.timestamp = now₁
        ∧ (Mem2.createAuditLog s now₁ l₁).2.id = (Mem2.createAuditLog s now₁ l₂).2.id
        ∧ (Mem2.createAuditLog s now₁ l₁).2.timestamp =
            (Mem2.createAuditLog s now₁ l₂).2.timestamp)
      ∧ (now₁ ≤ now₂ →
          (Mem2.createAuditLog s now₁ l₁).2.id ≠
            (Mem2.createAuditLog (Mem2.createAuditLog s now₁ l₁).1 now₂ l₂).2.id
          ∧ (Mem2.createAuditLog s now₁ l₁).2.timestamp ≤
            (Mem2.createAuditLog (Mem2.createAuditLog s now₁ l₁).1 now₂ l₂).2.timestamp) := by
  intro s now₁ now₂ l₁ l₂
  refine ⟨⟨rfl, rfl, rfl, rfl⟩, ?_⟩
  intro h
  constructor
  · show s.nextId ≠ s.nextId + 1
    omega
  · exact h

/-- Witness for C7: two appends of the identical payload to the empty
store at clocks 10 and 10. -/
theorem audit_append_fresh_id_and_timestamp_witness :
    (Mem2.createAuditLog c7Store 10 c7Payload).2.id ≠
      (Mem2.createAuditLog (Mem2.createAuditLog c7Store 10 c7Payload).1 10 c7Payload).2.id
    ∧ (Mem2.createAuditLog c7Store 10 c7Payload).2.timestamp ≤
      (Mem2.createAuditLog (Mem2.createAuditLog c7Store 10 c7Payload).1 10 c7Payload).2.timestamp :=
  (audit_append_fresh_id_and_timestamp c7Store 10 10 c7Payload c7Payload).2 (by decide)

/-! ## Claim C8 -/

/-- Whether an audit entry field passes one optional filter: an absent
filter passes everything, and so does a supplied empty string (falsy in
JavaScript, the filter is skipped); otherwise the field must equal the
filter value. -/
def pfilt (filt : Option String) (v : String) : Bool :=
  match filt with
  | some f => if f = "" then true else v == f
  | none => true

/-- One applyFilter step is a plain filter by pfilt. -/
theorem applyFilter_eq_filter (filt : Option String)
    (field : Mem2.AuditLog → String) (l : List Mem2.AuditLog) :
    Mem2.applyFilter filt field l = l.filter fun log => pfilt filt (field log) := by
  cases filt with
  | none => simp [Mem2.applyFilter, pfilt]
  | some f =>
    by_cases hf : f = "" <;> simp [Mem2.applyFilter, pfilt, hf]

/-- The audit entries of the store matching the tenant and all supplied
filters of a query. -/
def matchedLogs (s : Mem2.State) (q : Mem2.AuditQuery) : List Mem2.AuditLog :=
  s.auditLogs.filter fun log =>
    log.tenantId == q.tenantId && pfilt q.userId log.userId
      && pfilt q.resource log.resource && pfilt q.action log.action

/-- The four sequential filter steps of getAuditLogs compute
matchedLogs. -/
theorem filter_chain_eq_matchedLogs (s : Mem2.State) (q : Mem2.AuditQuery) :
    Mem2.applyFilter q.action (fun log => log.action)
      (Mem2.applyFilter q.resource (fun log => log.resource)
        (Mem2.applyFilter q.userId (fun log => log.userId)
          (s.auditLogs.filter fun log => log.tenantId == q.tenantId))) =
      matchedLogs s q := by
  have hb : ∀ (a b c d : Bool), (d && (c && (b && a))) = (((a && b) && c) && d) := by
    decide
  simp only [applyFilter_eq_filter, List.filter_filter, matchedLogs]
  exact List.filter_congr fun x _ => hb _ _ _ _

/-- The logs field of getAuditLogs is the matched list sliced from the
offset with the limit. -/
theorem getAuditLogs_logs (s : Mem2.State) (q : Mem2.AuditQuery) :
    (Mem2.getAuditLogs s q).logs =
      ((matchedLogs s q).drop (jsOrDefaultNat q.offset 0)).take (jsOrDefaultNat q.limit 50) := by
  simp only [Mem2.getAuditLogs]
  rw [filter_chain_eq_matchedLogs]

/-- The total field of getAuditLogs is the length of the matched list. -/
theorem getAuditLogs_total (s : Mem2.State) (q : Mem2.AuditQuery) :
    (Mem2.getAuditLogs s q).total = (matchedLogs s q).length := by
  simp only [Mem2.getAuditLogs]
  rw [filter_chain_eq_matchedLogs]

/-- An older audit entry of tenant T1, timestamp 1. -/
def c8Older : Mem2.AuditLog :=
  { id := 0, tenantId := "T1", userId := "u1", userRole := none,
    action := "CREATE", resource := "data", resourceId := none,
    changes := none, metadata := none, ipAddress := none, userAgent := none,
    timestamp := 1 }

/-- A newer audit entry of tenant T1, timestamp 2. -/
def c8Newer : Mem2.AuditLog :=
  { id := 1, tenantId := "T1", userId := "u1", userRole := none,
    action := "UPDATE", resource := "data", resourceId := none,
    changes := none, metadata := none, ipAddress := none, userAgent := none,
    timestamp := 2 }

/-- A second-version store holding the two entries in append order. -/
def c8Store : Mem2.State :=
  { overrides := [], auditLogs := [c8Older, c8Newer], dataMap := [], nextId := 2 }

/-- A filterless query for tenant T1. -/
def c8Query : Mem2.AuditQuery :=
  { tenantId := "T1", userId := none, resource := none, action := none,
    limit := none, offset := none }

/-- Claim C8 is false as stated: the in-memory audit query returns the
two matching entries in append order, so the first returned entry is the
one with the strictly smaller timestamp - not most-recent-first order. -/
theorem audit_query_most_recent_first_counterexample :
    (Mem2.getAuditLogs c8Store c8Query).logs = [c8Older, c8Newer]
    ∧ c8Older.timestamp < c8Newer.timestamp := by
  decide

/-- Claim C8 (amended): the in-memory audit query returns only entries of
the requested tenant matching every supplied (truthy) filter; the total
is the count of all matching entries, unaffected by limit and offset; the
page is the matched list sliced from offset (default 0) with limit
(default 50, a supplied 0 also meaning 50); and the page preserves the
store's append order - non-decreasing timestamps, oldest first - rather
than most-recent-first order. -/
theorem audit_query_pagination :
    ∀ (s : Mem2.State) (q : Mem2.AuditQuery),
      ((Mem2.getAuditLogs s q).total = (matchedLogs s q).length)
      ∧ (∀ lim off, (Mem2.getAuditLogs s { q with limit := lim, offset := off }).total =
          (Mem2.getAuditLogs s q).total)
      ∧ (∀ log ∈ (Mem2.getAuditLogs s q).logs,
          log.tenantId = q.tenantId
          ∧ pfilt q.userId log.userId = true
          ∧ pfilt q.resource log.resource = true
          ∧ pfilt q.action log.action = true)
      ∧ ((Mem2.getAuditLogs s q).logs.length ≤ jsOrDefaultNat q.limit 50)
      ∧ ((Mem2.getAuditLogs s q).logs =
          ((matchedLogs s q).drop (jsOrDefaultNat q.offset 0)).take (jsOrDefaultNat q.limit 50))
      ∧ (List.Pairwise (fun a b => a.timestamp ≤ b.timestamp) s.auditLogs →
          List.Pairwise (fun a b => a.timestamp ≤ b.timestamp) (Mem2.getAuditLogs s q).logs) := by
  intro s q
  have hsub : List.Sublist (Mem2.getAuditLogs s q).logs s.auditLogs := by
    rw [getAuditLogs_logs]
    exact ((List.take_sublist _ _).trans (List.drop_sublist _ _)).trans
      (List.filter_sublist _)
  refine ⟨getAuditLogs_total s q, ?_, ?_, ?_, getAuditLogs_logs s q, ?_⟩
  · intro lim off
    rw [getAuditLogs_total, getAuditLogs_total]
    rfl
  · intro log hmem
    rw [getAuditLogs_logs] at hmem
    have h1 := List.mem_of_mem_take hmem
    have h2 := List.mem_of_mem_drop h1
    have h3 := (List.mem_filter.mp h2).2
    simp only [Bool.and_eq_true, beq_iff_eq] at h3
    exact ⟨h3.1.1.1, h3.1.1.2, h3.1.2, h3.2⟩
  · rw [getAuditLogs_logs]
    exact List.length_take_le _ _
  · intro hsorted
    exact hsorted.sublist hsub

/-- Witness for the amended C8 at the two-entry store and the filterless
T1 query. -/
theorem audit_query_pagination_witness :
    ((Mem2.getAuditLogs c8Store c8Query).total = (matchedLogs c8Store c8Query).length)
    ∧ (∀ log ∈ (Mem2.getAuditLogs c8Store c8Query).logs, log.tenantId = "T1"
        ∧ pfilt c8Query.userId log.userId = true
        ∧ pfilt c8Query.resource log.resource = true
        ∧ pfilt c8Query.action log.action = true)
    ∧ List.Pairwise (fun a b => a.timestamp ≤ b.timestamp)
        (Mem2.getAuditLogs c8Store c8Query).logs :=
  ⟨(audit_query_pagination c8Store c8Query).1,
   (audit_query_pagination c8Store c8Query).2.2.1,
   (audit_query_pagination c8Store c8Query).2.2.2.2.2 (by decide)⟩

/-! ## Claim C9 -/

/-- A stored override of tenant T1, second storage version. -/
def c9Override : Mem2.TenantPermissionOverride :=
  { id := "ov1", tenantId := "T1", permissionName := "data.approve",
    rolesRequired := ["director"], autoApproveRoles := ["admin"],
    createdAt := 0, updatedAt := 0 }

/-- A stored data record of tenant T1, second storage version. -/
def c9Data : Mem2.Data :=
  { id := "d1", tenantId := "T1", userId := "u1", name := "record one",
    description := none, type := none, status := "draft", content := none,
    metadata := none, locationId := none, locationIds := none,
    requiresApproval := false, approvedBy := none, approvedAt := none,
    createdAt := 0, updatedAt := 0 }

/-- A second-version store with an override, an audit entry and a data
record, all of tenant T1. -/
def c9Store : Mem2.State :=
  { overrides := [c9Override], auditLogs := [c8Older],
    dataMap := [("d1", c9Data)], nextId := 2 }

/-- Claim C9: every read of the storage interface is tenant-scoped - an
override list or lookup, an audit query, and a data read return only
records whose tenantId equals the requesting tenant, so no record of one
tenant is ever returned to a query scoped to a different tenant. -/
theorem storage_reads_tenant_scoped :
    (∀ (s : Mem2.State) (t : String) (o : Mem2.TenantPermissionOverride),
        o ∈ Mem2.getPermissionOverrides s t → o.tenantId = t)
    ∧ (∀ (s : Mem2.State) (t p : String) (o : Mem2.TenantPermissionOverride),
        Mem2.getPermissionOverride s t p = some o →
        o.tenantId = t ∧ o.permissionName = p)
    ∧ (∀ (s : Mem2.State) (q : Mem2.AuditQuery) (log : Mem2.AuditLog),
        log ∈ (Mem2.getAuditLogs s q).logs → log.tenantId = q.tenantId)
    ∧ (∀ (s : Mem2.State) (id t : String) (d : Mem2.Data),
        Mem2.getData s id t = some d → d.tenantId = t)
    ∧ (∀ (s : Mem2.State) (t t' : String), t ≠ t' →
        (∀ o ∈ Mem2.getPermissionOverrides s t, o.tenantId ≠ t')
        ∧ (∀ (q : Mem2.AuditQuery) (log : Mem2.AuditLog), q.tenantId = t →
            log ∈ (Mem2.getAuditLogs s q).logs → log.tenantId ≠ t')) := by
  have hovs : ∀ (s : Mem2.State) (t : String) (o : Mem2.TenantPermissionOverride),
      o ∈ Mem2.getPermissionOverrides s t → o.tenantId = t := by
    intro s t o h
    have hp := (List.mem_filter.mp h).2
    exact beq_iff_eq.mp hp
  have hlogs : ∀ (s : Mem2.State) (q : Mem2.AuditQuery) (log : Mem2.AuditLog),
      log ∈ (Mem2.getAuditLogs s q).logs → log.tenantId = q.tenantId := by
    intro s q log hmem
    rw [getAuditLogs_logs] at hmem
    have h1 := List.mem_of_mem_drop (List.mem_of_mem_take hmem)
    have h2 := (List.mem_filter.mp h1).2
    simp only [Bool.and_eq_true, beq_iff_eq] at h2
    exact h2.1.1.1
  refine ⟨hovs, ?_, hlogs, ?_, ?_⟩
  · intro s t p o h
    have hp := List.find?_some h
    simp only [Bool.and_eq_true, beq_iff_eq] at hp
    exact hp
  · intro s id t d h
    unfold Mem2.getData at h
    split at h
    · exact Option.noConfusion h
    · rename_i item heq
      by_cases hten : item.tenantId ≠ t
      · rw [if_pos hten] at h
        exact Option.noConfusion h
      · rw [if_neg hten] at h
        cases h
        exact not_not.mp hten
  · intro s t t' hne
    constructor
    · intro o ho
      rw [hovs s t o ho]
      exact hne
    · intro q log hq hmem
      rw [hlogs s q log hmem, hq]
      exact hne

/-- Witness for C9 at the T1 store. -/
theorem storage_reads_tenant_scoped_witness :
    c9Override.tenantId = "T1"
    ∧ (c9Override.tenantId = "T1" ∧ c9Override.permissionName = "data.approve")
    ∧ c8Older.tenantId = c8Query.tenantId
    ∧ c9Data.tenantId = "T1"
    ∧ c9Override.tenantId ≠ "T2" :=
  ⟨storage_reads_tenant_scoped.1 c9Store "T1" c9Override (by decide),
   storage_reads_tenant_scoped.2.1 c9Store "T1" "data.approve" c9Override (by decide),
   storage_reads_tenant_scoped.2.2.1 c9Store c8Query c8Older (by decide),
   storage_reads_tenant_scoped.2.2.2.1 c9Store "d1" "T1" c9Data (by decide),
   (storage_reads_tenant_scoped.2.2.2.2 c9Store "T1" "T2" (by decide)).1 c9Override (by decide)⟩

/-! ## Claim C10 -/

/-- Looking up a key after setKey: the written key maps to the new value
and every other key is untouched. -/
theorem lookup_setKey (m : List (String × Mem2.Data)) (k k' : String) (v : Mem2.Data) :
    (Mem2.setKey m k v).lookup k' = if k' = k then some v else m.lookup k' := by
  induction m with
  | nil =>
    by_cases h : k' = k
    · simp [Mem2.setKey, List.lookup, h]
    · simp [Mem2.setKey, List.lookup, h, beq_eq_false_iff_ne.mpr h]
  | cons hd tl ih =>
    obtain ⟨kh, vh⟩ := hd
    by_cases hk : kh = k
    · subst hk
      by_cases h : k' = kh
      · simp [Mem2.setKey, List.lookup, h]
      · simp [Mem2.setKey, List.lookup, h, beq_eq_false_iff_ne.mpr h]
    · by_cases h : k' = kh
      · subst h
        have hne : k' ≠ k := hk
        simp [Mem2.setKey, List.lookup, beq_eq_false_iff_ne.mpr hk, hne]
      · have hkh : (k' == kh) = false := beq_eq_false_iff_ne.mpr h
        by_cases h2 : k' = k
        · subst h2
          simp [Mem2.setKey, List.lookup, beq_eq_false_iff_ne.mpr hk, hkh, ih]
        · simp [Mem2.setKey, List.lookup, beq_eq_false_iff_ne.mpr hk, hkh, ih, h2]

/-- A stored data record of tenant T1 for the C10 witness. -/
def c10Data : Mem2.Data :=
  { id := "d1", tenantId := "T1", userId := "u1", name := "before",
    description := some "old", type := none, status := "draft", content := none,
    metadata := none, locationId := none, locationIds := none,
    requiresApproval := false, approvedBy := none, approvedAt := none,
    createdAt := 3, updatedAt := 3 }

/-- A store holding that record. -/
def c10Store : Mem2.State :=
  { overrides := [], auditLogs := [], dataMap := [("d1", c10Data)], nextId := 1 }

/-- An update payload that tries to overwrite id, tenantId and createdAt
and also changes the name. -/
def c10Update : Mem2.DataUpdate :=
  { id := some "evil", tenantId := some "T2", createdAt := some 999,
    userId := none, name := some "after", description := none, type := none,
    status := none, content := none, metadata := none, locationId := none,
    locationIds := none, requiresApproval := none, approvedBy := none,
    approvedAt := none }

/-- Claim C10: updateData preserves the record's id, tenantId and
createdAt whatever the payload carries for them, stamps updatedAt with
the write time, leaves every other stored key and the other collections
of the store untouched, and fails without modifying anything when the id
does not resolve within the caller's tenant - in particular when the
record belongs to a different tenant. -/
theorem updateData_frame :
    ∀ (s : Mem2.State) (now : Nat) (id t : String) (u : Mem2.DataUpdate),
      (∀ existing, Mem2.getData s id t = some existing →
        ∃ s' d, Mem2.updateData s now id t u = Except.ok (s', d)
          ∧ d.id = existing.id
          ∧ d.tenantId = existing.tenantId
          ∧ d.createdAt = existing.createdAt
          ∧ d.updatedAt = now
          ∧ (∀ k, k ≠ id → s'.dataMap.lookup k = s.dataMap.lookup k)
          ∧ s'.dataMap.lookup id = some d
          ∧ s'.overrides = s.overrides
          ∧ s'.auditLogs = s.auditLogs)
      ∧ (Mem2.getData s id t = none →
          Mem2.updateData s now id t u = Except.error "Data not found")
      ∧ (∀ item, s.dataMap.lookup id = some item → item.tenantId ≠ t →
          Mem2.updateData s now id t u = Except.error "Data not found") := by
  intro s now id t u
  refine ⟨?_, ?_, ?_⟩
  · intro existing hget
    unfold Mem2.updateData
    rw [hget]
    refine ⟨_, _, rfl, rfl, rfl, rfl, rfl, ?_, ?_, rfl, rfl⟩
    · intro k hk
      simp [lookup_setKey, hk]
    · simp [lookup_setKey]
  · intro hget
    unfold Mem2.updateData
    rw [hget]
  · intro item hlook hten
    unfold Mem2.updateData Mem2.getData
    rw [hlook]
    simp [hten]

/-- Witness for C10: the hostile payload cannot move the record between
tenants or rewrite its identity, and a T2-scoped update of the T1 record
fails. -/
theorem updateData_frame_witness :
    (∃ s' d, Mem2.updateData c10Store 7 "d1" "T1" c10Update = Except.ok (s', d)
      ∧ d.id = c10Data.id
      ∧ d.tenantId = c10Data.tenantId
      ∧ d.createdAt = c10Data.createdAt
      ∧ d.updatedAt = 7
      ∧ (∀ k, k ≠ "d1" → s'.dataMap.lookup k = c10Store.dataMap.lookup k)
      ∧ s'.dataMap.lookup "d1" = some d
      ∧ s'.overrides = c10Store.overrides
      ∧ s'.auditLogs = c10Store.auditLogs)
    ∧ Mem2.updateData c10Store 7 "d1" "T2" c10Update = Except.error "Data not found" :=
  ⟨(updateData_frame c10Store 7 "d1" "T1" c10Update).1 c10Data (by decide),
   (updateData_frame c10Store 7 "d1" "T2" c10Update).2.2 c10Data (by decide) (by decide)⟩
